import Mathlib

/-!
Shallow embedding of the asynchronous coordination core of the self-checkout
client: the camera/model configuration window (ConfigWindow) and the payment
checkout dialog (CheckoutModal).  Handlers are modelled as pure functions from
component state to a new state together with a list of externally observable
effects (socket commands, store writes, notifications, view closes).  Async
results (the Firestore write, the availability of the socket handle, per-attempt
script-loading outcomes) are passed in as explicit parameters.
-/

namespace SelfCheckout

/-- `AdvancedConfig` from lib/types.ts (all fields). -/
structure AdvancedConfig where
  resolution : String
  frameRate : Nat
  model : String
  processingSpeed : String
  preset : String
  cameraId : Nat
deriving Repr, DecidableEq

/-- `SimulationConfig` from lib/types.ts. -/
structure SimulationConfig where
  enabled : Bool
deriving Repr, DecidableEq

/-- `AppConfig` from lib/types.ts.  The `detection` and `visual` sections hold
only rendering parameters; they flow through `saveConfig` opaquely and are never
read by the coordination logic, so they are elided here. -/
structure AppConfig where
  advanced : AdvancedConfig
  simulation : SimulationConfig
deriving Repr, DecidableEq

/-- `DEFAULT_CONFIG` from lib/constants.ts (coordination-relevant fields). -/
def DEFAULT_CONFIG : AppConfig :=
  { advanced :=
      { resolution := "640x480", frameRate := 30, model := "yolov5s"
        processingSpeed := "balanced", preset := "retail", cameraId := 0 }
    simulation := { enabled := false } }

/-- Outbound socket commands emitted by ConfigWindow / useSettingsSync. -/
inductive SocketCmd where
  | killCameraForConfig
  | initializeCamera (cameraId : Nat)
  | switchCamera (cameraId : Nat)
  | changeModel (modelPath : String)
  | toggleSimulation (enabled : Bool)
deriving Repr, DecidableEq

/-- Externally observable effects of a ConfigWindow handler invocation:
socket emissions, the Firestore write performed by `saveConfig`, notifications
shown through `socket.showNotification`, the `handleClose()` callback, and
`socket.setCameraEnabled(false)`. -/
inductive Effect where
  | emit (cmd : SocketCmd)
  | storeWrite (cfg : AppConfig)
  | notify (msg : String)
  | closeView
  | disableCamera
deriving Repr, DecidableEq

/-- React state of ConfigWindow (part_003, lines 80-97) that the camera
coordination logic reads or writes.  The dialog's own visibility is an external
prop (`isOpen`), so closing is the `Effect.closeView` callback rather than a
field here. -/
structure ConfigState where
  pendingConfig : AppConfig
  hasChanges : Bool
  isSwitchingCamera : Bool
  isInitializingCamera : Bool
  isRestoringCamera : Bool
  isClosingModal : Bool
  pendingTabChange : Option String
  /-- whether `initializationTimeout` currently holds a live timer id. -/
  initializationTimeout : Bool
  previousCameraId : Nat
  selectedCameraId : Nat
  activeTab : String
deriving Repr, DecidableEq

/-- The committed camera id recorded when the configuration view opens:
`config.advanced?.cameraId || 0` with a loaded config, `0` otherwise.
(For a natural-number `cameraId`, JavaScript `x || 0` is the identity.) -/
def committedCameraId : Option AppConfig → Nat
  | some c => c.advanced.cameraId
  | none => 0

/-- The ConfigWindow open effect (part_003, lines 166-198): on open it stores
the committed camera id as `previousCameraId`, stages it as `selectedCameraId`,
emits `kill_camera_for_config` whenever the socket handle exists, and resets
`pendingConfig`/`hasChanges`.  The model/camera list loading it also kicks off
issues only read-only queries and is elided. -/
def configOpenEffect (cfg : Option AppConfig) (socketAvailable : Bool)
    (s : ConfigState) : ConfigState × List Effect :=
  let cid := committedCameraId cfg
  let s' := { s with
    previousCameraId := cid
    selectedCameraId := cid
    pendingConfig := cfg.getD DEFAULT_CONFIG
    hasChanges := false }
  (s', if socketAvailable then [.emit .killCameraForConfig] else [])

/-- Payload of the `camera_initialized` socket event.  The source types
`camera_id` and `error` as optional; the handler interpolates them into
notification text unguarded, so `error` keeps its optionality here. -/
structure CameraInitData where
  success : Bool
  camera_id : Nat
  error : Option String
deriving Repr, DecidableEq

/-- JavaScript template interpolation of a possibly-undefined string. -/
def optText (o : Option String) : String := o.getD "undefined"

/-- `handleCameraInitialized` (part_003, lines 262-341): snapshots the pending
flags, clears the timeout and every loading flag, then branches on the event's
success and the snapshot to decide which continuation (close view / tab change /
plain notification) runs. -/
def handleCameraInitialized (d : CameraInitData) (s : ConfigState) :
    ConfigState × List Effect :=
  let wasClosing := s.isClosingModal
  let wasRestoring := s.isRestoringCamera
  let targetTab := s.pendingTabChange
  let s' := { s with
    initializationTimeout := false
    isInitializingCamera := false
    isRestoringCamera := false
    isClosingModal := false
    pendingTabChange := none }
  if d.success then
    if wasClosing then
      (s',
       [.notify ("Camera " ++ toString d.camera_id ++
          " berhasil diinisialisasi - silakan nyalakan kamera secara manual"),
        .disableCamera, .closeView])
    else if wasRestoring then
      match targetTab with
      | some t =>
          ({ s' with activeTab := t },
           [.notify ("Camera " ++ toString d.camera_id ++ " berhasil dikembalikan")])
      | none =>
          (s',
           [.notify ("Camera " ++ toString d.camera_id ++ " berhasil dikembalikan"),
            .closeView])
    else
      (s', [.notify ("Camera " ++ toString d.camera_id ++ " berhasil diinisialisasi")])
  else
    let errNote : Effect := .notify ("Gagal menginisialisasi kamera: " ++ optText d.error)
    if wasClosing then
      (s', [errNote, .closeView])
    else if wasRestoring then
      match targetTab with
      | some t => ({ s' with activeTab := t }, [errNote])
      | none => (s', [errNote, .closeView])
    else
      (s', [errNote])

/-- Result of the awaited `saveConfig` call inside `handleSaveSettings`:
it resolves `true`, resolves `false`, or the surrounding `try` catches. -/
inductive SaveOutcome where
  | ok
  | storeFail
  | exn
deriving Repr, DecidableEq

/-- `handleSaveSettings` (part_003, lines 425-488): raises both loading flags,
applies the staged simulation toggle, writes the pending config (with the staged
camera id) to Firestore, and only on a successful write and a live socket emits
`initialize_camera(selectedCameraId)` and arms the 30 s timeout.  A failed or
throwing write clears the flags and notifies without any camera command. -/
def handleSaveSettings (outcome : SaveOutcome) (socketAvailable : Bool)
    (s : ConfigState) : ConfigState × List Effect :=
  let s1 := { s with isClosingModal := true, isInitializingCamera := true }
  let cfg := { s.pendingConfig with
    advanced := { s.pendingConfig.advanced with cameraId := s.selectedCameraId } }
  let pre : List Effect :=
    [.emit (.toggleSimulation s.pendingConfig.simulation.enabled), .storeWrite cfg]
  match outcome with
  | .ok =>
      if socketAvailable then
        ({ s1 with hasChanges := false, initializationTimeout := true },
         pre ++ [.notify "Pengaturan berhasil disimpan",
                 .emit (.initializeCamera s.selectedCameraId)])
      else
        ({ s1 with hasChanges := false, isClosingModal := false,
                   isInitializingCamera := false },
         pre ++ [.notify "Pengaturan berhasil disimpan",
                 .notify "Koneksi socket tidak tersedia"])
  | .storeFail =>
      ({ s1 with isClosingModal := false, isInitializingCamera := false },
       pre ++ [.notify "Gagal menyimpan pengaturan"])
  | .exn =>
      ({ s1 with isClosingModal := false, isInitializingCamera := false },
       pre ++ [.notify "Terjadi kesalahan saat menyimpan pengaturan"])

/-- The 30-second timeout armed by `handleSaveSettings` (part_003, lines
458-464): clears the two loading flags and the timer and shows a timeout
notification.  It does not call `handleClose()`. -/
def saveTimeoutFire (s : ConfigState) : ConfigState × List Effect :=
  ({ s with isClosingModal := false, isInitializingCamera := false,
            initializationTimeout := false },
   [.notify "Timeout menginisialisasi kamera - coba lagi"])

/-- `handleConfigClose` (part_003, lines 498-524): with a diverged selection it
starts a restore of `previousCameraId` (emitting `initialize_camera` and arming
the 30 s timer when the socket exists) and defers the close to the event;
otherwise it closes immediately with no command. -/
def handleConfigClose (socketAvailable : Bool) (s : ConfigState) :
    ConfigState × List Effect :=
  if s.selectedCameraId ≠ s.previousCameraId then
    if socketAvailable then
      ({ s with isRestoringCamera := true, initializationTimeout := true },
       [.emit (.initializeCamera s.previousCameraId)])
    else
      ({ s with isRestoringCamera := true }, [])
  else
    (s, [.closeView])

/-- The 30-second timeout armed by `handleConfigClose` (part_003, lines
508-514): forces the close and notifies. -/
def closeTimeoutFire (s : ConfigState) : ConfigState × List Effect :=
  ({ s with isRestoringCamera := false, initializationTimeout := false },
   [.closeView, .notify "Timeout mengembalikan kamera - modal ditutup anyway"])

/-- `handleTabChange` (part_003, lines 554-583): leaving the model tab with a
diverged selection records the target tab, resets the staged selection back to
`previousCameraId` immediately, and starts the restore; every other tab change
switches tabs at once with no command. -/
def handleTabChange (newTab : String) (socketAvailable : Bool)
    (s : ConfigState) : ConfigState × List Effect :=
  if s.activeTab = "model" ∧ newTab ≠ "model" ∧
     s.selectedCameraId ≠ s.previousCameraId then
    if socketAvailable then
      ({ s with isRestoringCamera := true, pendingTabChange := some newTab,
                selectedCameraId := s.previousCameraId,
                initializationTimeout := true },
       [.emit (.initializeCamera s.previousCameraId)])
    else
      ({ s with isRestoringCamera := true, pendingTabChange := some newTab,
                selectedCameraId := s.previousCameraId }, [])
  else
    ({ s with activeTab := newTab }, [])

/-- The 30-second timeout armed by `handleTabChange` (part_003, lines 566-573):
forces the deferred tab change and notifies. -/
def tabTimeoutFire (newTab : String) (s : ConfigState) : ConfigState × List Effect :=
  ({ s with isRestoringCamera := false, pendingTabChange := none,
            activeTab := newTab, initializationTimeout := false },
   [.notify "Timeout mengembalikan kamera - tab berubah anyway"])

/-- Whether an effect list emits the camera-initialize command. -/
def emitsInitialize (l : List Effect) : Bool :=
  l.any fun e =>
    match e with
    | .emit (.initializeCamera _) => true
    | _ => false

/-- Scan: `true` iff the first camera-initialize emission, if any, is preceded
by a Firestore write. -/
def storeBeforeInitialize : List Effect → Bool
  | [] => true
  | .storeWrite _ :: _ => true
  | .emit (.initializeCamera _) :: _ => false
  | _ :: rest => storeBeforeInitialize rest

/-! ### CheckoutModal (payment session) -/

/-- `PaymentStatus` from CheckoutModal.tsx line 53. -/
inductive PaymentStatus where
  | idle
  | creating
  | pending
  | success
  | failed
  | expired
  | cancelled
deriving Repr, DecidableEq

/-- `PaymentData` from CheckoutModal.tsx lines 15-23 (string timestamps kept
abstract as the raw `expires_at` text; the countdown works on the derived
`timeRemaining` seconds). -/
structure PaymentData where
  transaction_id : String
  order_id : String
  snap_token : String
  payment_url : String
  qr_code_url : Option String
  expires_at : String
  environment : String
deriving Repr, DecidableEq

/-- React state of CheckoutModal (lines 71-76) plus the dialog `open` prop the
component drives through `onOpenChange`. -/
structure PaymentState where
  dialogOpen : Bool
  paymentStatus : PaymentStatus
  paymentData : Option PaymentData
  errorMessage : String
  timeRemaining : Nat
  snapPopupOpen : Bool
deriving Repr, DecidableEq

/-- Externally observable effects of CheckoutModal handlers: launching the Snap
widget, the `checkout_complete` emission that clears the cart, and the 500 ms
re-open timer armed by the widget callbacks. -/
inductive PEffect where
  | snapPay (token : String)
  | checkoutCompleteCmd
  | scheduleReopen
deriving Repr, DecidableEq

/-- Delayed closure scheduled by the success paths (3000 ms `setTimeout`). -/
inductive Scheduled where
  | successCleanup
deriving Repr, DecidableEq

/-- `resetPaymentState` (lines 215-221). -/
def resetPaymentState (s : PaymentState) : PaymentState :=
  { s with paymentStatus := .idle, paymentData := none, errorMessage := ""
           timeRemaining := 0, snapPopupOpen := false }

/-- The reset-on-close `useEffect` (lines 366-370): whenever the dialog prop is
false the whole payment state is reset. -/
def applyResetOnClose (s : PaymentState) : PaymentState :=
  if s.dialogOpen then s else resetPaymentState s

/-- The successful-open branch shared verbatim by `handleOpenSnap` (lines
167-200) and the auto-open path inside `handlePaymentCreated` (lines 256-288):
mark the popup open, close the dialog (`onOpenChange(false)`, whose prop change
runs the reset-on-close effect), and call `window.snap.pay` with the token. -/
def snapPayLaunch (token : String) (s : PaymentState) : PaymentState × List PEffect :=
  (applyResetOnClose { s with snapPopupOpen := true, dialogOpen := false },
   [.snapPay token])

/-- `handleOpenSnap` (lines 154-212): bails out without a token or while the
popup is already open; with the Snap library loaded it runs `snapPayLaunch`,
otherwise it fails the session locally. -/
def handleOpenSnap (snapAvailable : Bool) (s : PaymentState) :
    PaymentState × List PEffect :=
  match s.paymentData with
  | none => (s, [])
  | some pd =>
    if s.snapPopupOpen then (s, [])
    else if snapAvailable then snapPayLaunch pd.snap_token s
    else ({ s with errorMessage := "Snap script tidak tersedia",
                   paymentStatus := .failed }, [])

/-- The widget `onClose` callback (lines 195-199 and 283-287): clear the popup
flag and arm the 500 ms re-open timer; the status is untouched. -/
def snapOnClose (s : PaymentState) : PaymentState × List PEffect :=
  ({ s with snapPopupOpen := false }, [.scheduleReopen])

/-- Firing of the 500 ms re-open timer: `onOpenChange(true)`.  Re-opening does
not trigger the reset-on-close effect (which only fires on a false prop). -/
def runReopen (s : PaymentState) : PaymentState :=
  applyResetOnClose { s with dialogOpen := true }

/-- Payload of `payment_status_update` as read by the handler. -/
structure StatusUpdateData where
  payment_successful : Bool
  payment_failed : Bool
deriving Repr, DecidableEq

/-- `handlePaymentStatusUpdate` (lines 311-323): a gateway-pushed success sets
`status = success` and schedules the 3 s cleanup; a pushed failure sets
`status = failed`. -/
def handlePaymentStatusUpdate (d : StatusUpdateData) (s : PaymentState) :
    PaymentState × Option Scheduled :=
  if d.payment_successful then
    ({ s with paymentStatus := .success }, some .successCleanup)
  else if d.payment_failed then
    ({ s with paymentStatus := .failed,
              errorMessage := "Pembayaran gagal atau dibatalkan" }, none)
  else (s, none)

/-- `handlePaymentCompleted` (lines 325-332): unconditional success plus the
same scheduled cleanup. -/
def handlePaymentCompleted (s : PaymentState) : PaymentState × Option Scheduled :=
  ({ s with paymentStatus := .success }, some .successCleanup)

/-- The 3000 ms cleanup scheduled by the success paths (lines 314-318 and
327-331): emit `checkout_complete` (clearing the cart), close the dialog, and
reset the session. -/
def runSuccessCleanup (s : PaymentState) : PaymentState × List PEffect :=
  (resetPaymentState { s with dialogOpen := false }, [.checkoutCompleteCmd])

/-- One firing of the countdown interval (lines 348-363).  The interval only
exists while `timeRemaining > 0`; a tick at `prev ≤ 1` forces expiry
unconditionally, any larger value just decrements. -/
def countdownTick (s : PaymentState) : PaymentState :=
  if s.timeRemaining = 0 then s
  else if s.timeRemaining ≤ 1 then
    { s with paymentStatus := .expired, errorMessage := "Waktu pembayaran habis"
             timeRemaining := 0 }
  else { s with timeRemaining := s.timeRemaining - 1 }

/-- Outcome of one auto-open attempt inside `handlePaymentCreated`:
`loadSnapScript` threw, the script loaded but `window.snap` is still absent, or
the widget is ready to open. -/
inductive SnapAttemptOutcome where
  | loadFailed
  | snapUnavailable
  | snapReady
deriving Repr, DecidableEq

/-- The attempts actually performed by `tryOpenSnap` (lines 248-302), given the
per-attempt environment: a ready attempt opens the widget and stops; a failed
attempt re-schedules itself only while `attempt < 3`. -/
def tryOpenSnapAttempts (env : Nat → SnapAttemptOutcome) (attempt : Nat) :
    List Nat :=
  match env attempt with
  | .snapReady => [attempt]
  | _ =>
    if h : attempt < 3 then attempt :: tryOpenSnapAttempts env (attempt + 1)
    else [attempt]
termination_by 3 - attempt
decreasing_by omega

/-- Whether an effect list shows any notification. -/
def hasNotify (l : List Effect) : Bool :=
  l.any fun e =>
    match e with
    | .notify _ => true
    | _ => false

/-- A concrete ConfigWindow state in which the pending save/restore flags have
already been cleared by a fired timeout (the Operation is resolved). -/
def resolvedConfigState : ConfigState :=
  { pendingConfig := DEFAULT_CONFIG
    hasChanges := false
    isSwitchingCamera := false
    isInitializingCamera := false
    isRestoringCamera := false
    isClosingModal := false
    pendingTabChange := none
    initializationTimeout := false
    previousCameraId := 0
    selectedCameraId := 1
    activeTab := "model" }

/-- A concrete ConfigWindow state mid-save: both loading flags raised and the
30 s timer armed, as `handleSaveSettings` leaves them after a successful store
write. -/
def savingConfigState : ConfigState :=
  { pendingConfig := DEFAULT_CONFIG
    hasChanges := false
    isSwitchingCamera := false
    isInitializingCamera := true
    isRestoringCamera := false
    isClosingModal := true
    pendingTabChange := none
    initializationTimeout := true
    previousCameraId := 0
    selectedCameraId := 1
    activeTab := "model" }

lemma handleCameraInitialized_preserves_cameraIds (d : CameraInitData)
    (t : ConfigState) :
    (handleCameraInitialized d t).1.selectedCameraId = t.selectedCameraId ∧
    (handleCameraInitialized d t).1.previousCameraId = t.previousCameraId := by
  rcases d with ⟨su, cid, err⟩
  rcases ht : t.pendingTabChange with _ | tb <;>
    cases hc : t.isClosingModal <;> cases hr : t.isRestoringCamera <;> cases su <;>
      simp [handleCameraInitialized, ht, hc, hr]

/-- C5: on a configuration-view close and on any tab change away from the model
tab, a selection equal to the committed (previous) device yields no
`initialize_camera` emission, and conversely any emission from these handlers
implies a diverged selection. -/
theorem converged_selection_emits_no_camera_command
    (s : ConfigState) (avail : Bool) (newTab : String) :
    (s.selectedCameraId = s.previousCameraId →
       emitsInitialize (handleConfigClose avail s).2 = false ∧
       emitsInitialize (handleTabChange newTab avail s).2 = false) ∧
    (emitsInitialize (handleConfigClose avail s).2 = true →
       s.selectedCameraId ≠ s.previousCameraId) ∧
    (emitsInitialize (handleTabChange newTab avail s).2 = true →
       s.selectedCameraId ≠ s.previousCameraId) := by
  by_cases hd : s.selectedCameraId = s.previousCameraId <;>
    cases avail <;>
      simp [handleConfigClose, handleTabChange, emitsInitialize, hd]

/-- C5 witness at a concrete converged state. -/
theorem converged_selection_emits_no_camera_command_witness :
    emitsInitialize
      (handleConfigClose true
        { resolvedConfigState with selectedCameraId := 0 }).2 = false ∧
    emitsInitialize
      (handleTabChange "detection" true
        { resolvedConfigState with selectedCameraId := 0 }).2 = false :=
  (converged_selection_emits_no_camera_command
      { resolvedConfigState with selectedCameraId := 0 } true "detection").1 rfl

/-- C9: opening the configuration view (socket handle present) always emits
`kill_camera_for_config` — with or without a loaded config, whatever the
component state — and records the committed device id as both the rollback
target `previousCameraId` and the staged `selectedCameraId`. -/
theorem config_open_always_kills_camera (cfg : Option AppConfig) (s : ConfigState) :
    Effect.emit SocketCmd.killCameraForConfig ∈ (configOpenEffect cfg true s).2 ∧
    (configOpenEffect cfg true s).1.previousCameraId = committedCameraId cfg ∧
    (configOpenEffect cfg true s).1.selectedCameraId = committedCameraId cfg := by
  simp [configOpenEffect]

/-- C10: leaving the model tab always leaves the staged selection equal to the
committed one — with a diverged selection `selectedCameraId` is reset to
`previousCameraId` in the very state `handleTabChange` returns (before the
restore command resolves), and the resolution handler never touches either
id. -/
theorem tab_change_resets_staged_selection
    (s : ConfigState) (newTab : String) (avail : Bool)
    (hm : s.activeTab = "model") (hn : newTab ≠ "model") :
    (handleTabChange newTab avail s).1.selectedCameraId =
      (handleTabChange newTab avail s).1.previousCameraId ∧
    (handleTabChange newTab avail s).1.previousCameraId = s.previousCameraId ∧
    (∀ d t, (handleCameraInitialized d t).1.selectedCameraId = t.selectedCameraId ∧
            (handleCameraInitialized d t).1.previousCameraId = t.previousCameraId) := by
  refine ⟨?_, ?_, handleCameraInitialized_preserves_cameraIds⟩ <;>
    by_cases hd : s.selectedCameraId = s.previousCameraId <;>
      cases avail <;>
        simp [handleTabChange, hm, hn, hd]

/-- C10 witness at a concrete diverged state on the model tab. -/
theorem tab_change_resets_staged_selection_witness :
    (handleTabChange "detection" true resolvedConfigState).1.selectedCameraId =
      (handleTabChange "detection" true resolvedConfigState).1.previousCameraId :=
  (tab_change_resets_staged_selection resolvedConfigState "detection" true rfl
    (by decide)).1

/-- C6: `handleSaveSettings` always places the Firestore write before any
`initialize_camera` emission in its effect trace, emits `initialize_camera`
exactly when the write succeeded and the socket exists, and a failed write
clears both loading flags and surfaces an error notification with no camera
command. -/
theorem save_settings_store_write_gates_camera_init
    (s : ConfigState) (outcome : SaveOutcome) (avail : Bool) :
    storeBeforeInitialize (handleSaveSettings outcome avail s).2 = true ∧
    (emitsInitialize (handleSaveSettings outcome avail s).2 = true ↔
       outcome = SaveOutcome.ok ∧ avail = true) ∧
    ((handleSaveSettings SaveOutcome.storeFail avail s).1.isClosingModal = false ∧
     (handleSaveSettings SaveOutcome.storeFail avail s).1.isInitializingCamera = false ∧
     Effect.notify "Gagal menyimpan pengaturan" ∈
       (handleSaveSettings SaveOutcome.storeFail avail s).2) := by
  cases outcome <;> cases avail <;>
    simp [handleSaveSettings, storeBeforeInitialize, emitsInitialize]

/-- C6 witness at a concrete state for both the successful and the failed store
write. -/
theorem save_settings_store_write_gates_camera_init_witness :
    storeBeforeInitialize
      (handleSaveSettings SaveOutcome.ok true resolvedConfigState).2 = true ∧
    Effect.notify "Gagal menyimpan pengaturan" ∈
      (handleSaveSettings SaveOutcome.storeFail true resolvedConfigState).2 :=
  ⟨(save_settings_store_write_gates_camera_init resolvedConfigState SaveOutcome.ok
      true).1,
   (save_settings_store_write_gates_camera_init resolvedConfigState SaveOutcome.ok
      true).2.2.2.2⟩

/-- C1 counterexample: in a fully resolved state (all pending flags cleared by
the fired timeout) a late successful `camera_initialized` event still produces a
notification — the handler falls through to the "normal initialization" branch
and calls `showNotification`, so the late event is not free of observable
effects as claimed. -/
theorem late_event_notifies_counterexample :
    hasNotify (handleCameraInitialized
      { success := true, camera_id := 1, error := none } resolvedConfigState).2
      = true ∧
    (handleCameraInitialized
      { success := true, camera_id := 1, error := none } resolvedConfigState).2 =
      [Effect.notify "Camera 1 berhasil diinisialisasi"] := by
  constructor
  · rfl
  · rfl

/-- C1 amended: once an Operation is resolved (pending flags cleared), a late or
duplicate `camera_initialized` event causes no view close, no tab change and no
state transition — the component state is returned unchanged — but it does still
surface one notification. -/
theorem late_camera_event_only_notifies
    (s : ConfigState) (d : CameraInitData)
    (h1 : s.isClosingModal = false) (h2 : s.isRestoringCamera = false)
    (h3 : s.pendingTabChange = none) (h4 : s.initializationTimeout = false)
    (h5 : s.isInitializingCamera = false) :
    (handleCameraInitialized d s).1 = s ∧
    ∃ m, (handleCameraInitialized d s).2 = [Effect.notify m] := by
  rcases d with ⟨su, cid, err⟩
  cases su
  · refine ⟨?_, "Gagal menginisialisasi kamera: " ++ optText err, ?_⟩
    · rcases s with ⟨pc, hc, sw, ii, ir, icm, ptc, it, prev, sel, tab⟩
      simp only at h1 h2 h3 h4 h5
      simp [handleCameraInitialized, h1, h2, h3, h4, h5]
    · simp [handleCameraInitialized, h1, h2, h3]
  · refine ⟨?_, "Camera " ++ toString cid ++ " berhasil diinisialisasi", ?_⟩
    · rcases s with ⟨pc, hc, sw, ii, ir, icm, ptc, it, prev, sel, tab⟩
      simp only at h1 h2 h3 h4 h5
      simp [handleCameraInitialized, h1, h2, h3, h4, h5]
    · simp [handleCameraInitialized, h1, h2, h3]

/-- C1 witness: the amended theorem applied at a concrete resolved state and a
concrete duplicate success event. -/
theorem late_camera_event_only_notifies_witness :
    (handleCameraInitialized
      { success := true, camera_id := 3, error := none } resolvedConfigState).1 =
      resolvedConfigState ∧
    ∃ m, (handleCameraInitialized
      { success := true, camera_id := 3, error := none } resolvedConfigState).2 =
      [Effect.notify m] :=
  late_camera_event_only_notifies resolvedConfigState
    { success := true, camera_id := 3, error := none } rfl rfl rfl rfl rfl

/-- C2 counterexample: the timeout armed by `handleSaveSettings` does not close
the configuration view — at a concrete mid-save state its effects are exactly
one timeout notification, and `closeView` is not among them, refuting the claim
that the 30-second save timeout unblocks the UI by closing the configuration
view. -/
theorem save_timeout_no_close_counterexample :
    (saveTimeoutFire savingConfigState).2 =
      [Effect.notify "Timeout menginisialisasi kamera - coba lagi"] ∧
    Effect.closeView ∉ (saveTimeoutFire savingConfigState).2 := by
  constructor
  · rfl
  · decide

/-- C2 amended: the 30-second save timeout unblocks the UI by clearing both
save loading flags (so the view stops spinning and remains interactive) and
surfaces an error notification, but it leaves the configuration view open and
both camera ids (committed/previous and staged/selected) unchanged. -/
theorem save_timeout_unblocks_without_closing (s : ConfigState) :
    (saveTimeoutFire s).1 =
      { s with isClosingModal := false, isInitializingCamera := false,
               initializationTimeout := false } ∧
    (saveTimeoutFire s).2 =
      [Effect.notify "Timeout menginisialisasi kamera - coba lagi"] ∧
    Effect.closeView ∉ (saveTimeoutFire s).2 ∧
    (saveTimeoutFire s).1.previousCameraId = s.previousCameraId ∧
    (saveTimeoutFire s).1.selectedCameraId = s.selectedCameraId := by
  simp [saveTimeoutFire]

/-- A concrete PaymentData record for witnesses. -/
def samplePaymentData : PaymentData :=
  { transaction_id := "trx-1"
    order_id := "order-1"
    snap_token := "tok-1"
    payment_url := "https://pay.example"
    qr_code_url := none
    expires_at := "2025-01-01T00:15:00Z"
    environment := "sandbox" }

/-- A concrete pending payment session with the Snap widget open. -/
def pendingPaymentState : PaymentState :=
  { dialogOpen := false
    paymentStatus := .pending
    paymentData := some samplePaymentData
    errorMessage := ""
    timeRemaining := 900
    snapPopupOpen := true }

/-- A concrete payment session already expired by the local countdown. -/
def expiredPaymentState : PaymentState :=
  { dialogOpen := true
    paymentStatus := .expired
    paymentData := some samplePaymentData
    errorMessage := "Waktu pembayaran habis"
    timeRemaining := 0
    snapPopupOpen := false }

/-- C3: the widget `onClose` callback leaves a pending session pending — it only
clears the popup flag and arms the 500 ms re-open timer, and once that timer
fires the checkout dialog is open again with the status still `pending`. -/
theorem snap_onclose_keeps_pending_and_reopens
    (s : PaymentState) (h1 : s.paymentStatus = .pending)
    (h2 : s.snapPopupOpen = true) :
    (snapOnClose s).1.paymentStatus = .pending ∧
    (snapOnClose s).1.snapPopupOpen = false ∧
    (snapOnClose s).2 = [PEffect.scheduleReopen] ∧
    (runReopen (snapOnClose s).1).dialogOpen = true ∧
    (runReopen (snapOnClose s).1).paymentStatus = .pending := by
  simp [snapOnClose, runReopen, applyResetOnClose, h1]

/-- C3 witness at a concrete pending session. -/
theorem snap_onclose_keeps_pending_and_reopens_witness :
    (snapOnClose pendingPaymentState).1.paymentStatus = .pending ∧
    (snapOnClose pendingPaymentState).1.snapPopupOpen = false ∧
    (snapOnClose pendingPaymentState).2 = [PEffect.scheduleReopen] ∧
    (runReopen (snapOnClose pendingPaymentState).1).dialogOpen = true ∧
    (runReopen (snapOnClose pendingPaymentState).1).paymentStatus = .pending :=
  snap_onclose_keeps_pending_and_reopens pendingPaymentState rfl rfl

/-- C4: the countdown reaching zero sets `status = expired` whatever the current
status; a gateway success (`payment_status_update` with `payment_successful`, or
`payment_completed`) arriving in any state — in particular after local expiry —
sets `status = success` and schedules the cleanup whose run emits
`checkout_complete`, clearing the cart. -/
theorem expiry_unconditional_and_late_success_clears_cart (s : PaymentState) :
    (s.timeRemaining = 1 → (countdownTick s).paymentStatus = .expired) ∧
    (∀ d : StatusUpdateData, d.payment_successful = true →
       (handlePaymentStatusUpdate d s).1.paymentStatus = .success ∧
       (handlePaymentStatusUpdate d s).2 = some Scheduled.successCleanup) ∧
    ((handlePaymentCompleted s).1.paymentStatus = .success ∧
     (handlePaymentCompleted s).2 = some Scheduled.successCleanup) ∧
    (∀ t : PaymentState, PEffect.checkoutCompleteCmd ∈ (runSuccessCleanup t).2) := by
  refine ⟨?_, ?_, ?_, ?_⟩
  · intro h
    simp [countdownTick, h]
  · intro d hd
    simp [handlePaymentStatusUpdate, hd]
  · simp [handlePaymentCompleted]
  · intro t
    simp [runSuccessCleanup]

/-- C4 witness: a tick at one second left on a pending session expires it, and a
success update on the already-expired session still schedules the cart-clearing
cleanup. -/
theorem expiry_unconditional_and_late_success_clears_cart_witness :
    (countdownTick { pendingPaymentState with timeRemaining := 1 }).paymentStatus
      = .expired ∧
    (handlePaymentStatusUpdate
        { payment_successful := true, payment_failed := false }
        expiredPaymentState).1.paymentStatus = .success ∧
    PEffect.checkoutCompleteCmd ∈ (runSuccessCleanup expiredPaymentState).2 :=
  ⟨(expiry_unconditional_and_late_success_clears_cart
      { pendingPaymentState with timeRemaining := 1 }).1 rfl,
   ((expiry_unconditional_and_late_success_clears_cart expiredPaymentState).2.1
      { payment_successful := true, payment_failed := false } rfl).1,
   (expiry_unconditional_and_late_success_clears_cart expiredPaymentState).2.2.2
      expiredPaymentState⟩

/-- C7: whatever the per-attempt script-loading outcomes, the auto-open
procedure performs at most 3 attempts, and it only re-tries an attempt on which
the Snap library was not ready. -/
theorem try_open_snap_bounded (env : Nat → SnapAttemptOutcome) :
    (tryOpenSnapAttempts env 1).length ≤ 3 ∧
    ∀ i ∈ (tryOpenSnapAttempts env 1).dropLast, env i ≠ .snapReady := by
  cases h1 : env 1 <;> cases h2 : env 2 <;> cases h3 : env 3 <;>
    simp [tryOpenSnapAttempts, h1, h2, h3]

/-- C7 witness: the bound applied to the environment in which every attempt
fails to find the library (the worst case: all three attempts run). -/
theorem try_open_snap_bounded_witness :
    (tryOpenSnapAttempts (fun _ => SnapAttemptOutcome.snapUnavailable) 1).length
      ≤ 3 :=
  (try_open_snap_bounded (fun _ => SnapAttemptOutcome.snapUnavailable)).1

/-- C8: opening the Snap widget (manually via `handleOpenSnap`, or through the
shared launch branch the auto-open path uses) closes the checkout dialog, and
the reset-on-close effect then resets the whole session — status `idle`, no
payment data, zero remaining time, popup flag false — while the `snap.pay`
launch effect shows the widget. -/
theorem widget_open_resets_session
    (s : PaymentState) (pd : PaymentData)
    (h1 : s.paymentData = some pd) (h2 : s.snapPopupOpen = false) :
    handleOpenSnap true s =
      (resetPaymentState { s with dialogOpen := false },
       [PEffect.snapPay pd.snap_token]) ∧
    (handleOpenSnap true s).1.paymentStatus = .idle ∧
    (handleOpenSnap true s).1.paymentData = none ∧
    (handleOpenSnap true s).1.timeRemaining = 0 ∧
    (handleOpenSnap true s).1.snapPopupOpen = false ∧
    (handleOpenSnap true s).1.dialogOpen = false ∧
    (∀ tok t, (snapPayLaunch tok t).1 =
        resetPaymentState { t with dialogOpen := false } ∧
      (snapPayLaunch tok t).2 = [PEffect.snapPay tok]) := by
  refine ⟨?_, ?_, ?_, ?_, ?_, ?_, ?_⟩
  · simp [handleOpenSnap, h1, h2, snapPayLaunch, applyResetOnClose,
      resetPaymentState]
  · simp [handleOpenSnap, h1, h2, snapPayLaunch, applyResetOnClose,
      resetPaymentState]
  · simp [handleOpenSnap, h1, h2, snapPayLaunch, applyResetOnClose,
      resetPaymentState]
  · simp [handleOpenSnap, h1, h2, snapPayLaunch, applyResetOnClose,
      resetPaymentState]
  · simp [handleOpenSnap, h1, h2, snapPayLaunch, applyResetOnClose,
      resetPaymentState]
  · simp [handleOpenSnap, h1, h2, snapPayLaunch, applyResetOnClose,
      resetPaymentState]
  · intro tok t
    simp [snapPayLaunch, applyResetOnClose, resetPaymentState]

/-- C8 witness: the reset applied at a concrete pending session whose popup is
not yet open. -/
theorem widget_open_resets_session_witness :
    (handleOpenSnap true { pendingPaymentState with snapPopupOpen := false
    }).1.paymentStatus = .idle ∧
    (handleOpenSnap true { pendingPaymentState with snapPopupOpen := false
    }).1.paymentData = none :=
  ⟨(widget_open_resets_session
      { pendingPaymentState with snapPopupOpen := false } samplePaymentData rfl
      rfl).2.1,
   (widget_open_resets_session
      { pendingPaymentState with snapPopupOpen := false } samplePaymentData rfl
      rfl).2.2.1⟩

end SelfCheckout
